import Mathlib

/-!
Verification of the TeamCity build-server client
(`pkg/buildserver/teamcity/teamcity.go`).

The Go code is embedded shallowly:

* Go strings are Lean `String`; `strings.TrimPrefix` is `trimPrefix`.
* Go maps that the code only iterates over (`params`,
  `snapshotDependencies`, `artifactDependencies`) are association lists
  `List (String × α)`; Go guarantees no iteration order, and no theorem
  below depends on one.
* The effectful ingredients of each method — `http.NewRequest`,
  `client.Do`, `json.Marshal`, `json.Unmarshal` — are passed to the
  embedded method as explicit function arguments (`newRequest`, `doReq`,
  `marshal`, `unmarshal`); the outcome of `ioutil.ReadAll(resp.Body)`
  lives inside `Response.bodyRead`.  A theorem can therefore quantify
  over every possible outcome of the network and of serialization.
* Go `(value, error)` returns become `Except String value`, except for
  methods whose pair shape matters to a claim (`StartBuild` returns the
  literal pair `Int × Option String`, `GetArtifactTextFile` the triple
  `String × String × Option String`), where the Go tuple is kept.
* The log package calls have no observable effect on any return value and
  are dropped.
-/

namespace Teamcity

/-- Go `strings.TrimPrefix s pre`: `s` without the leading `pre` when `pre`
is a prefix of `s`, otherwise `s` unchanged. -/
def trimPrefix (s pre : String) : String :=
  if pre.data.isPrefixOf s.data then ⟨s.data.drop pre.data.length⟩ else s

/-- The fields of `TCClient` that the request methods read: the bearer token
and the base server URL.  The embedded `http.Client` (timeouts, TLS
configuration) only determines the behaviour of `client.Do`, which the
methods below receive as the `doReq` argument, so it is not stored. -/
structure TCClient where
  token : String
  serverURL : String
deriving Repr, DecidableEq

/-- Lines 24–51, `NewTeamcityClient`: the stored token is the argument with
one leading `"Bearer "` trimmed; the URL is stored as given (no
validation). -/
def newTeamcityClient (serverURL token : String) : TCClient :=
  { token := trimPrefix token "Bearer ", serverURL := serverURL }

/-- An outgoing `http.Request` as the methods build one: method, URL string,
headers in insertion order, optional body. -/
structure Request where
  method : String
  url : String
  headers : List (String × String)
  body : Option String
deriving Repr, DecidableEq

/-- An `http.Response` as the methods consume one: the status code (which,
as the theorems show, no method reads), the response headers, and the
outcome of `ioutil.ReadAll(resp.Body)`. -/
structure Response where
  status : Nat
  headers : List (String × String)
  bodyRead : Except String String
deriving Repr

/-- The outcome of `http.NewRequest`: a `Request` or an error.  Theorems
that pin down the request a method sends instantiate this with
`mkRequest`. -/
abbrev NewRequest := String → String → Option String → Except String Request

/-- The outcome of `client.Do`: one function from requests to transport
results stands for the whole HTTP round trip. -/
abbrev DoRequest := Request → Except String Response

/-- An `http.NewRequest` that succeeds and records its arguments
verbatim. -/
def mkRequest : NewRequest := fun method url body => .ok ⟨method, url, [], body⟩

/-- Go `http.Header.Add`: appends one key/value pair. -/
def headerAdd (headers : List (String × String)) (key value : String) :
    List (String × String) :=
  headers ++ [(key, value)]

/-- Go `http.Header.Get`: the first value stored under the key, or the
empty string.  (Go canonicalizes header keys; the embedding compares them
verbatim, which is adequate because each theorem uses one spelling.) -/
def headerGet (headers : List (String × String)) (key : String) : String :=
  match headers.find? (fun kv => kv.1 == key) with
  | some kv => kv.2
  | none => ""

/-- Lines 324–326, `setAuthorizationHeader`: adds
`Authorization: Bearer {token}`. -/
def setAuthorizationHeader (t : TCClient) (headers : List (String × String)) :
    List (String × String) :=
  headerAdd headers "Authorization" ("Bearer " ++ t.token)

/-- The three header lines every method runs right after `http.NewRequest`:
`t.setAuthorizationHeader(req.Header)`, then
`req.Header.Add("Accept", "application/json")`, then
`req.Header.Add("Content-Type", "application/json")`. -/
def withHeaders (t : TCClient) (req : Request) : Request :=
  { req with
      headers :=
        headerAdd
          (headerAdd (setAuthorizationHeader t req.headers)
            "Accept" "application/json")
          "Content-Type" "application/json" }

/-- Lines 55–85, `GetBuild`: GET `{base}/app/rest/builds/id:{id}`, read the
body, unmarshal it into the caller-supplied destination type `α`.  The
response status is never examined. -/
def getBuild {α : Type} (t : TCClient) (newRequest : NewRequest)
    (doReq : DoRequest) (unmarshal : String → Except String α) (id : Int) :
    Except String α :=
  match newRequest "GET"
      (t.serverURL ++ "/app/rest/builds/id:" ++ toString id) none with
  | .error e => .error e
  | .ok req =>
    match doReq (withHeaders t req) with
    | .error e => .error e
    | .ok resp =>
      match resp.bodyRead with
      | .error e => .error e
      | .ok body => unmarshal body

/-- Build-type reference inside the trigger payload (`TCBuildType`).
Modelled from the spec: the type is declared outside `src/`; `src/` fills
only the pipeline id (spec §3, build reference). -/
structure TCBuildType where
  ID : String
deriving Repr, DecidableEq

/-- Trigger comment (`TCBuildComment`).  Modelled from the spec: declared
outside `src/`; `src/` fills only the text. -/
structure TCBuildComment where
  Text : String
deriving Repr, DecidableEq

/-- One key/value property pair (`TCBuildProperty`, serialized as
`{name, value}`).  Modelled from the spec: declared outside `src/`; the
composite literal at line 120 fills the two fields positionally. -/
structure TCBuildProperty where
  Name : String
  Value : String
deriving Repr, DecidableEq

/-- The properties container (`TCBuildProperties`, serialized as
`properties.property`).  Modelled from the spec: declared outside
`src/`. -/
structure TCBuildProperties where
  Property : List TCBuildProperty
deriving Repr, DecidableEq

/-- Build details (`TCBuildDetails`).  Modelled from the spec: declared
outside `src/`; the spec (§3) requires at minimum a numeric build ID, and
`src/` additionally fills `BuildTypeID` when using the type as a build
reference inside dependency lists (lines 132, 137). -/
structure TCBuildDetails where
  ID : Int
  BuildTypeID : String
deriving Repr, DecidableEq

/-- A list of builds (`TCBuildSnapshotDependencies`), used both for the
dependency blocks of the trigger payload and as the container `GetAllBuilds`
unmarshals into.  Modelled from the spec: declared outside `src/`. -/
structure TCBuildSnapshotDependencies where
  Builds : List TCBuildDetails
deriving Repr, DecidableEq

/-- The trigger payload (`TCBuildPayload`).  Modelled from the spec: the
type and its JSON tags are declared outside `src/`; fields and their use
are per `src/` lines 104–146.  A `none` dependency field stands for a nil
pointer, which per the spec is omitted entirely from the serialized JSON
(`snapshot-dependencies` / `artifact-dependencies` are "included in the
payload only if non-empty (omitted entirely otherwise, not sent as empty
lists)"). -/
structure TCBuildPayload where
  BuildType : TCBuildType
  Comment : TCBuildComment
  Properties : TCBuildProperties
  Personal : String
  BranchName : String
  SnapshotDependencies : Option TCBuildSnapshotDependencies
  ArtifactDependencies : Option TCBuildSnapshotDependencies
deriving Repr, DecidableEq

/-- Lines 102–146 of `StartBuild`: the pure construction of the trigger
payload from the arguments, before `json.Marshal` is called.  The `range`
loops over the three Go maps become `List.map` over association lists. -/
def startBuildPayload (buildTypeID branch comment : String)
    (params : List (String × String))
    (snapshotDependencies artifactDependencies : List (String × Int)) :
    TCBuildPayload :=
  let payload : TCBuildPayload :=
    { BuildType := ⟨buildTypeID⟩,
      Comment := ⟨comment⟩,
      Properties := ⟨[]⟩,
      Personal := "False",
      BranchName := branch,
      SnapshotDependencies := none,
      ArtifactDependencies := none }
  let payload :=
    { payload with Properties := ⟨params.map (fun kv => ⟨kv.1, kv.2⟩)⟩ }
  let snapDeps : TCBuildSnapshotDependencies :=
    ⟨snapshotDependencies.map (fun kv => ⟨kv.2, kv.1⟩)⟩
  let artfDeps : TCBuildSnapshotDependencies :=
    ⟨artifactDependencies.map (fun kv => ⟨kv.2, kv.1⟩)⟩
  let payload :=
    if snapDeps.Builds.length > 0 then
      { payload with SnapshotDependencies := some snapDeps }
    else payload
  if artfDeps.Builds.length > 0 then
    { payload with ArtifactDependencies := some artfDeps }
  else payload

/-- Lines 97–189, `StartBuild`: marshal the trigger payload, POST it to
`{base}/app/rest/buildQueue`, read and unmarshal the response into
`TCBuildDetails`, and return `(buildDetails.ID, nil)`; every failure path
returns `(-1, err)`.  The status code is never examined. -/
def startBuild (t : TCClient) (newRequest : NewRequest) (doReq : DoRequest)
    (marshal : TCBuildPayload → Except String String)
    (unmarshal : String → Except String TCBuildDetails)
    (buildTypeID branch comment : String)
    (params : List (String × String))
    (snapshotDependencies artifactDependencies : List (String × Int)) :
    Int × Option String :=
  let payload := startBuildPayload buildTypeID branch comment params
    snapshotDependencies artifactDependencies
  match marshal payload with
  | .error e => (-1, some e)
  | .ok requestPayload =>
    match newRequest "POST" (t.serverURL ++ "/app/rest/buildQueue")
        (some requestPayload) with
    | .error e => (-1, some e)
    | .ok req =>
      match doReq (withHeaders t req) with
      | .error e => (-1, some e)
      | .ok resp =>
        match resp.bodyRead with
        | .error e => (-1, some e)
        | .ok body =>
          match unmarshal body with
          | .error e => (-1, some e)
          | .ok buildDetails => (buildDetails.ID, none)

/-- The stop/cancel payload (`TCBuildStopPayload`).  Modelled from the
spec: declared outside `src/`; `src/` fills exactly a comment and a
re-queue flag (`ReaddIntoQueue`), the latter always the string
`"false"`. -/
structure TCBuildStopPayload where
  Comment : String
  ReaddIntoQueue : String
deriving Repr, DecidableEq

/-- Lines 195–244, `CancelQueuedBuild`: marshal the stop payload, POST it
to `{base}/app/rest/buildQueue/{id}`, read the body without parsing it, and
return nil.  Every failure path returns the underlying error. -/
def cancelQueuedBuild (t : TCClient) (newRequest : NewRequest)
    (doReq : DoRequest)
    (marshal : TCBuildStopPayload → Except String String)
    (id : Int) (comment : String) : Option String :=
  let payload : TCBuildStopPayload :=
    { Comment := comment, ReaddIntoQueue := "false" }
  match marshal payload with
  | .error e => some e
  | .ok requestPayload =>
    match newRequest "POST"
        (t.serverURL ++ "/app/rest/buildQueue/" ++ toString id)
        (some requestPayload) with
    | .error e => some e
    | .ok req =>
      match doReq (withHeaders t req) with
      | .error e => some e
      | .ok resp =>
        match resp.bodyRead with
        | .error e => some e
        | .ok _ => none

/-- Lines 247–288, `StopBuild`: same as `CancelQueuedBuild` except the POST
targets `{base}/app/rest/builds/{id}`. -/
def stopBuild (t : TCClient) (newRequest : NewRequest) (doReq : DoRequest)
    (marshal : TCBuildStopPayload → Except String String)
    (id : Int) (comment : String) : Option String :=
  let payload : TCBuildStopPayload :=
    { Comment := comment, ReaddIntoQueue := "false" }
  match marshal payload with
  | .error e => some e
  | .ok requestPayload =>
    match newRequest "POST"
        (t.serverURL ++ "/app/rest/builds/" ++ toString id)
        (some requestPayload) with
    | .error e => some e
    | .ok req =>
      match doReq (withHeaders t req) with
      | .error e => some e
      | .ok resp =>
        match resp.bodyRead with
        | .error e => some e
        | .ok _ => none

/-- Lines 299–322, `GetArtifactTextFile`: GET
`{base}/app/rest/builds/id:{id}/artifacts/content/{path}` and return the
raw body together with the response's `Content-Type` header.  Failure
paths return an empty content, an empty content type and the error. -/
def getArtifactTextFile (t : TCClient) (newRequest : NewRequest)
    (doReq : DoRequest) (path : String) (id : Int) :
    String × String × Option String :=
  match newRequest "GET"
      (t.serverURL ++ "/app/rest/builds/id:" ++ toString id
        ++ "/artifacts/content/" ++ path) none with
  | .error e => ("", "", some e)
  | .ok req =>
    match doReq (withHeaders t req) with
    | .error e => ("", "", some e)
    | .ok resp =>
      match resp.bodyRead with
      | .error e => ("", "", some e)
      | .ok fileContent =>
        (fileContent, headerGet resp.headers "Content-Type", none)

/-- The query filters of `GetAllBuilds` (`TCQueryParams`).  Modelled from
the spec: declared outside `src/`; fields and their zero values are per the
use at `src/` lines 333–363 and spec §3 (query parameters). -/
structure TCQueryParams where
  BuildTypeID : String
  Branch : String
  User : String
  Count : Int
  Start : Int
  LookupLimit : Int
  Running : Bool
  Cancelled : Bool
deriving Repr, DecidableEq

/-- Go `fmt.Sprintf` with the `%t` verb. -/
def formatBool (b : Bool) : String :=
  if b then "true" else "false"

/-- Lines 331–363 of `GetAllBuilds`: the request URL, built by successive
conditional concatenation onto `{base}/app/rest/builds/?locator=`. -/
def getAllBuildsURL (t : TCClient) (params : TCQueryParams) : String :=
  let requestURL := t.serverURL ++ "/app/rest/builds/?locator="
  let requestURL := if params.BuildTypeID ≠ "" then
      requestURL ++ ("buildType:(id:" ++ params.BuildTypeID ++ "),")
    else requestURL
  let requestURL := if params.Branch ≠ "" then
      requestURL ++ ("branch:(name:" ++ params.Branch ++ "),")
    else requestURL
  let requestURL := if params.User ≠ "" then
      requestURL ++ ("user:" ++ params.User ++ ",")
    else requestURL
  let requestURL := if params.Count > 0 then
      requestURL ++ ("count:" ++ toString params.Count ++ ",")
    else requestURL
  let requestURL := if params.Start > 0 then
      requestURL ++ ("start:" ++ toString params.Start ++ ",")
    else requestURL
  let requestURL := if params.LookupLimit > 0 then
      requestURL ++ ("lookupLimit:" ++ toString params.LookupLimit ++ ",")
    else requestURL
  let requestURL := if params.Running then
      requestURL ++ ("running:" ++ formatBool params.Running ++ ",")
    else requestURL
  let requestURL := if params.Cancelled then
      requestURL ++ ("cancelled:" ++ formatBool params.Cancelled ++ ",")
    else requestURL
  requestURL

/-- Lines 330–390, `GetAllBuilds`: GET the locator URL, read the body and
unmarshal it into the builds container.  The status code is never
examined. -/
def getAllBuilds (t : TCClient) (newRequest : NewRequest) (doReq : DoRequest)
    (unmarshal : String → Except String TCBuildSnapshotDependencies)
    (params : TCQueryParams) : Except String TCBuildSnapshotDependencies :=
  match newRequest "GET" (getAllBuildsURL t params) none with
  | .error e => .error e
  | .ok req =>
    match doReq (withHeaders t req) with
    | .error e => .error e
    | .ok resp =>
      match resp.bodyRead with
      | .error e => .error e
      | .ok respBody => unmarshal respBody

/-- The locator string as §4.7 of the spec words it: one `key:value,`
fragment per present filter (non-empty string, positive count/start/lookup
limit, true flag), in the fixed order buildType, branch, user, count,
start, lookupLimit, running, cancelled, each fragment keeping its trailing
comma. -/
def specLocator (p : TCQueryParams) : String :=
  (if p.BuildTypeID ≠ "" then "buildType:(id:" ++ p.BuildTypeID ++ ")," else "")
    ++ (if p.Branch ≠ "" then "branch:(name:" ++ p.Branch ++ ")," else "")
    ++ (if p.User ≠ "" then "user:" ++ p.User ++ "," else "")
    ++ (if p.Count > 0 then "count:" ++ toString p.Count ++ "," else "")
    ++ (if p.Start > 0 then "start:" ++ toString p.Start ++ "," else "")
    ++ (if p.LookupLimit > 0 then
          "lookupLimit:" ++ toString p.LookupLimit ++ "," else "")
    ++ (if p.Running then "running:" ++ formatBool p.Running ++ "," else "")
    ++ (if p.Cancelled then "cancelled:" ++ formatBool p.Cancelled ++ "," else "")

/-- Appending conditionally is appending a conditional fragment. -/
lemma append_ite_right (c : Prop) [Decidable c] (s f : String) :
    (if c then s ++ f else s) = s ++ (if c then f else "") := by
  split_ifs <;> simp [String.append_empty]

/-- Dropping an appended string recovers the suffix. -/
lemma trimPrefix_append (pre t : String) : trimPrefix (pre ++ t) pre = t := by
  have hp : pre.data.isPrefixOf (pre ++ t).data = true := by
    simp [String.data_append, List.isPrefixOf_iff_prefix]
  simp only [trimPrefix, hp, if_true]
  apply String.ext
  simp [String.data_append, List.drop_left]

/-- Claim C2, counterexample: the claim quantifies over every token, but
for a token that itself starts with `"Bearer "` the raw and the
re-prefixed form give different Authorization headers, because the
constructor strips only one copy of the prefix. -/
theorem newTeamcityClient_bearer_not_idempotent :
    ¬ (setAuthorizationHeader (newTeamcityClient "http://tc" "Bearer abc") [] =
       setAuthorizationHeader
         (newTeamcityClient "http://tc" ("Bearer " ++ "Bearer abc")) []) := by
  decide

/-- Claim C2 (amended): for every token that does not itself begin with
`"Bearer "`, constructing a client with the raw token and with the
`"Bearer "`-prefixed token yields identical Authorization headers on every
request, namely `Bearer {token}` appended to the existing headers: the
constructor strips the single leading prefix and `setAuthorizationHeader`
re-adds it. -/
theorem newTeamcityClient_token_normalization (url tok : String)
    (hs : List (String × String))
    (h : "Bearer ".data.isPrefixOf tok.data = false) :
    setAuthorizationHeader (newTeamcityClient url tok) hs =
      setAuthorizationHeader (newTeamcityClient url ("Bearer " ++ tok)) hs ∧
    setAuthorizationHeader (newTeamcityClient url tok) hs =
      hs ++ [("Authorization", "Bearer " ++ tok)] ∧
    setAuthorizationHeader (newTeamcityClient url ("Bearer " ++ tok)) hs =
      hs ++ [("Authorization", "Bearer " ++ tok)] := by
  have h1 : trimPrefix tok "Bearer " = tok := by
    simp [trimPrefix, h]
  have h2 : trimPrefix ("Bearer " ++ tok) "Bearer " = tok :=
    trimPrefix_append "Bearer " tok
  simp [setAuthorizationHeader, newTeamcityClient, headerAdd, h1, h2]

/-- Claim C2, witness: the amended statement at the token `"abc123"`. -/
theorem newTeamcityClient_token_normalization_witness :
    ("Bearer ".data.isPrefixOf "abc123".data = false) ∧
    (setAuthorizationHeader (newTeamcityClient "http://tc" "abc123") [] =
      setAuthorizationHeader
        (newTeamcityClient "http://tc" ("Bearer " ++ "abc123")) [] ∧
     setAuthorizationHeader (newTeamcityClient "http://tc" "abc123") [] =
      [("Authorization", "Bearer " ++ "abc123")] ∧
     setAuthorizationHeader
        (newTeamcityClient "http://tc" ("Bearer " ++ "abc123")) [] =
      [("Authorization", "Bearer " ++ "abc123")]) :=
  ⟨by decide,
   newTeamcityClient_token_normalization "http://tc" "abc123" [] (by decide)⟩

/-- Claim C3: `GetAllBuilds` builds its URL by appending to
`{base}/app/rest/builds/?locator=` one fragment per present filter, in the
fixed order buildType, branch, user, count, start, lookupLimit, running,
cancelled, keeping the trailing comma; in particular the filters
`BuildTypeID = "bt1", Count = 5` yield the locator
`buildType:(id:bt1),count:5,`. -/
theorem getAllBuildsURL_eq_specLocator (t : TCClient) (p : TCQueryParams) :
    getAllBuildsURL t p =
      t.serverURL ++ "/app/rest/builds/?locator=" ++ specLocator p ∧
    getAllBuildsURL ⟨"tok", "http://tc"⟩ ⟨"bt1", "", "", 5, 0, 0, false, false⟩ =
      "http://tc/app/rest/builds/?locator=buildType:(id:bt1),count:5," := by
  constructor
  · simp only [getAllBuildsURL, specLocator, append_ite_right]
    simp only [String.append_assoc]
  · decide

/-- Claim C10: with every filter zero-valued, `GetAllBuilds` targets
exactly `{base}/app/rest/builds/?locator=` — an empty locator, no
fragments, no trailing comma — and the request goes out and succeeds
rather than being omitted or failing. -/
theorem getAllBuildsURL_empty_locator (t : TCClient)
    (unmarshal : String → Except String TCBuildSnapshotDependencies)
    (resp : Response) (body : String) (bs : TCBuildSnapshotDependencies)
    (hb : resp.bodyRead = .ok body) (hu : unmarshal body = .ok bs) :
    getAllBuildsURL t ⟨"", "", "", 0, 0, 0, false, false⟩ =
      t.serverURL ++ "/app/rest/builds/?locator=" ∧
    getAllBuilds t mkRequest
      (fun req =>
        if req = ⟨"GET", t.serverURL ++ "/app/rest/builds/?locator=",
            [("Authorization", "Bearer " ++ t.token),
             ("Accept", "application/json"),
             ("Content-Type", "application/json")], none⟩
        then .ok resp else .error "unexpected request")
      unmarshal ⟨"", "", "", 0, 0, 0, false, false⟩ = .ok bs := by
  refine ⟨rfl, ?_⟩
  simp only [getAllBuilds, mkRequest, withHeaders, setAuthorizationHeader,
    headerAdd, List.nil_append, List.singleton_append, List.cons_append]
  rw [show getAllBuildsURL t ⟨"", "", "", 0, 0, 0, false, false⟩ =
    t.serverURL ++ "/app/rest/builds/?locator=" from rfl]
  rw [if_pos rfl]
  simp [hb, hu]

/-- Claim C10, witness: the statement at a concrete client and
response. -/
theorem getAllBuildsURL_empty_locator_witness :
    getAllBuildsURL ⟨"tok", "http://tc"⟩ ⟨"", "", "", 0, 0, 0, false, false⟩ =
      "http://tc" ++ "/app/rest/builds/?locator=" ∧
    getAllBuilds ⟨"tok", "http://tc"⟩ mkRequest
      (fun req =>
        if req = ⟨"GET", "http://tc" ++ "/app/rest/builds/?locator=",
            [("Authorization", "Bearer " ++ "tok"),
             ("Accept", "application/json"),
             ("Content-Type", "application/json")], none⟩
        then .ok ⟨503, [], .ok "jsonbody"⟩ else .error "unexpected request")
      (fun s => if s = "jsonbody" then .ok ⟨[]⟩ else .error "bad json")
      ⟨"", "", "", 0, 0, 0, false, false⟩ = .ok ⟨[]⟩ :=
  getAllBuildsURL_empty_locator ⟨"tok", "http://tc"⟩
    (fun s => if s = "jsonbody" then .ok ⟨[]⟩ else .error "bad json")
    ⟨503, [], .ok "jsonbody"⟩ "jsonbody" ⟨[]⟩ rfl (by rfl)

/-- Claim C4: a dependency block appears in the trigger payload exactly
when the corresponding map is non-empty — an empty map leaves the field
`none`, i.e. omitted from the serialized payload rather than sent as an
empty list — and each entry `(buildTypeID, id)` of a non-empty map becomes
the build reference `{ID := id, BuildTypeID := buildTypeID}`; in
particular the snapshot map `{"BuildTypeA": 42}` produces a
snapshot-dependencies block listing build 42 of type "BuildTypeA". -/
theorem startBuildPayload_dependency_blocks (bt branch comment : String)
    (params : List (String × String)) (sd ad : List (String × Int)) :
    ((startBuildPayload bt branch comment params sd ad).SnapshotDependencies =
      if sd = [] then none
      else some ⟨sd.map (fun kv => ⟨kv.2, kv.1⟩)⟩) ∧
    ((startBuildPayload bt branch comment params sd ad).ArtifactDependencies =
      if ad = [] then none
      else some ⟨ad.map (fun kv => ⟨kv.2, kv.1⟩)⟩) ∧
    (startBuildPayload "bt" "branch" "c" [] [("BuildTypeA", 42)]
        []).SnapshotDependencies =
      some ⟨[⟨42, "BuildTypeA"⟩]⟩ := by
  refine ⟨?_, ?_, by decide⟩ <;>
    rcases sd with _ | ⟨p, sd⟩ <;> rcases ad with _ | ⟨q, ad⟩ <;>
      simp [startBuildPayload]

/-- Claim C5: the properties list of the trigger payload holds exactly one
`{name, value}` pair per parameter-map entry and nothing else; in
particular the single parameter `KEY = VALUE` with empty dependency maps
yields the single property `{name := "KEY", value := "VALUE"}` and both
dependency fields omitted. -/
theorem startBuildPayload_properties (bt branch comment : String)
    (params : List (String × String)) (sd ad : List (String × Int)) :
    ((startBuildPayload bt branch comment params sd ad).Properties.Property =
      params.map (fun kv => ⟨kv.1, kv.2⟩)) ∧
    ((startBuildPayload "bt" "branch" "c" [("KEY", "VALUE")] []
        []).Properties.Property =
      [⟨"KEY", "VALUE"⟩] ∧
     (startBuildPayload "bt" "branch" "c" [("KEY", "VALUE")] []
        []).SnapshotDependencies = none ∧
     (startBuildPayload "bt" "branch" "c" [("KEY", "VALUE")] []
        []).ArtifactDependencies = none) := by
  refine ⟨?_, by decide⟩
  rcases sd with _ | ⟨p, sd⟩ <;> rcases ad with _ | ⟨q, ad⟩ <;>
    simp [startBuildPayload]

/-- Claim C1: none of `GetBuild`, `StartBuild` and `GetAllBuilds` inspects
the response status code — the result is unchanged under an arbitrary
change of status and response headers — and whenever the body is read
successfully and unmarshals into the destination structure the operation
returns success, whatever the status was. -/
theorem responses_parsed_regardless_of_status
    (t : TCClient) {α : Type} (um : String → Except String α)
    (umSB : String → Except String TCBuildDetails)
    (umAB : String → Except String TCBuildSnapshotDependencies)
    (marshal : TCBuildPayload → Except String String)
    (id : Int) (buildTypeID branch comment : String)
    (params : List (String × String)) (sd ad : List (String × Int))
    (p : TCQueryParams) (s₁ s₂ : Nat)
    (hs₁ hs₂ : List (String × String)) (rb : Except String String)
    (body mp : String) (d : α) (bd : TCBuildDetails)
    (bs : TCBuildSnapshotDependencies) :
    (getBuild t mkRequest (fun _ => .ok ⟨s₁, hs₁, rb⟩) um id =
      getBuild t mkRequest (fun _ => .ok ⟨s₂, hs₂, rb⟩) um id) ∧
    (rb = .ok body → um body = .ok d →
      getBuild t mkRequest (fun _ => .ok ⟨s₁, hs₁, rb⟩) um id = .ok d) ∧
    (startBuild t mkRequest (fun _ => .ok ⟨s₁, hs₁, rb⟩) marshal umSB
        buildTypeID branch comment params sd ad =
      startBuild t mkRequest (fun _ => .ok ⟨s₂, hs₂, rb⟩) marshal umSB
        buildTypeID branch comment params sd ad) ∧
    (marshal (startBuildPayload buildTypeID branch comment params sd ad) =
        .ok mp →
      rb = .ok body → umSB body = .ok bd →
      startBuild t mkRequest (fun _ => .ok ⟨s₁, hs₁, rb⟩) marshal umSB
        buildTypeID branch comment params sd ad = (bd.ID, none)) ∧
    (getAllBuilds t mkRequest (fun _ => .ok ⟨s₁, hs₁, rb⟩) umAB p =
      getAllBuilds t mkRequest (fun _ => .ok ⟨s₂, hs₂, rb⟩) umAB p) ∧
    (rb = .ok body → umAB body = .ok bs →
      getAllBuilds t mkRequest (fun _ => .ok ⟨s₁, hs₁, rb⟩) umAB p = .ok bs) := by
  refine ⟨rfl, fun h1 h2 => ?_, rfl, fun hm h1 h2 => ?_, rfl,
    fun h1 h2 => ?_⟩
  · subst h1; exact h2
  · subst h1; simp [startBuild, mkRequest, hm, h2]
  · subst h1; simp [getAllBuilds, mkRequest, h2]

/-- Claim C1, witness: a 404 response whose body parses is reported as
success by all three operations. -/
theorem responses_parsed_regardless_of_status_witness :
    (getBuild ⟨"tok", "http://tc"⟩ mkRequest
        (fun _ => .ok ⟨404, [], .ok "jsonbody"⟩) (fun _ => .ok (7 : Int)) 3 =
      .ok 7) ∧
    (startBuild ⟨"tok", "http://tc"⟩ mkRequest
        (fun _ => .ok ⟨404, [], .ok "jsonbody"⟩) (fun _ => .ok "payload")
        (fun _ => .ok ⟨11, "btX"⟩) "bt" "main" "c" [] [] [] =
      (11, none)) ∧
    (getAllBuilds ⟨"tok", "http://tc"⟩ mkRequest
        (fun _ => .ok ⟨404, [], .ok "jsonbody"⟩) (fun _ => .ok ⟨[]⟩)
        ⟨"", "", "", 0, 0, 0, false, false⟩ =
      .ok ⟨[]⟩) :=
  ⟨(responses_parsed_regardless_of_status ⟨"tok", "http://tc"⟩
      (fun _ => .ok (7 : Int)) (fun _ => .ok ⟨11, "btX"⟩) (fun _ => .ok ⟨[]⟩)
      (fun _ => .ok "payload") 3 "bt" "main" "c" [] [] []
      ⟨"", "", "", 0, 0, 0, false, false⟩ 404 200 [] []
      (.ok "jsonbody") "jsonbody" "payload" 7 ⟨11, "btX"⟩ ⟨[]⟩).2.1 rfl rfl,
   (responses_parsed_regardless_of_status ⟨"tok", "http://tc"⟩
      (fun _ => .ok (7 : Int)) (fun _ => .ok ⟨11, "btX"⟩) (fun _ => .ok ⟨[]⟩)
      (fun _ => .ok "payload") 3 "bt" "main" "c" [] [] []
      ⟨"", "", "", 0, 0, 0, false, false⟩ 404 200 [] []
      (.ok "jsonbody") "jsonbody" "payload" 7 ⟨11, "btX"⟩
      ⟨[]⟩).2.2.2.1 rfl rfl rfl,
   (responses_parsed_regardless_of_status ⟨"tok", "http://tc"⟩
      (fun _ => .ok (7 : Int)) (fun _ => .ok ⟨11, "btX"⟩) (fun _ => .ok ⟨[]⟩)
      (fun _ => .ok "payload") 3 "bt" "main" "c" [] [] []
      ⟨"", "", "", 0, 0, 0, false, false⟩ 404 200 [] []
      (.ok "jsonbody") "jsonbody" "payload" 7 ⟨11, "btX"⟩
      ⟨[]⟩).2.2.2.2.2 rfl rfl⟩

/-- Claim C6: `StartBuild` returns `(-1, err)` with a non-nil error exactly
when marshaling, request construction, the network call, the body read or
the JSON decode fails; when all five succeed it returns the parsed build
ID with a nil error, and every error return carries the ID -1. -/
theorem startBuild_error_contract
    (t : TCClient) (nr : NewRequest)
    (marshal : TCBuildPayload → Except String String)
    (um : String → Except String TCBuildDetails)
    (buildTypeID branch comment : String) (params : List (String × String))
    (sd ad : List (String × Int)) (mp e : String) (req : Request)
    (resp : Response) (body : String) (bd : TCBuildDetails)
    (d : DoRequest) :
    (marshal (startBuildPayload buildTypeID branch comment params sd ad) =
        .error e →
      startBuild t nr d marshal um buildTypeID branch comment params sd ad =
        (-1, some e)) ∧
    (marshal (startBuildPayload buildTypeID branch comment params sd ad) =
        .ok mp →
      nr "POST" (t.serverURL ++ "/app/rest/buildQueue") (some mp) = .error e →
      startBuild t nr d marshal um buildTypeID branch comment params sd ad =
        (-1, some e)) ∧
    (marshal (startBuildPayload buildTypeID branch comment params sd ad) =
        .ok mp →
      nr "POST" (t.serverURL ++ "/app/rest/buildQueue") (some mp) = .ok req →
      startBuild t nr (fun _ => .error e) marshal um buildTypeID branch
        comment params sd ad = (-1, some e)) ∧
    (marshal (startBuildPayload buildTypeID branch comment params sd ad) =
        .ok mp →
      nr "POST" (t.serverURL ++ "/app/rest/buildQueue") (some mp) = .ok req →
      resp.bodyRead = .error e →
      startBuild t nr (fun _ => .ok resp) marshal um buildTypeID branch
        comment params sd ad = (-1, some e)) ∧
    (marshal (startBuildPayload buildTypeID branch comment params sd ad) =
        .ok mp →
      nr "POST" (t.serverURL ++ "/app/rest/buildQueue") (some mp) = .ok req →
      resp.bodyRead = .ok body → um body = .error e →
      startBuild t nr (fun _ => .ok resp) marshal um buildTypeID branch
        comment params sd ad = (-1, some e)) ∧
    (marshal (startBuildPayload buildTypeID branch comment params sd ad) =
        .ok mp →
      nr "POST" (t.serverURL ++ "/app/rest/buildQueue") (some mp) = .ok req →
      resp.bodyRead = .ok body → um body = .ok bd →
      startBuild t nr (fun _ => .ok resp) marshal um buildTypeID branch
        comment params sd ad = (bd.ID, none)) ∧
    ((startBuild t nr d marshal um buildTypeID branch comment params sd
        ad).2.isSome →
      (startBuild t nr d marshal um buildTypeID branch comment params sd
        ad).1 = -1) := by
  refine ⟨fun hm => ?_, fun hm hn => ?_, fun hm hn => ?_,
    fun hm hn hb => ?_, fun hm hn hb hu => ?_, fun hm hn hb hu => ?_,
    fun herr => ?_⟩
  · simp [startBuild, hm]
  · simp [startBuild, hm, hn]
  · simp [startBuild, hm, hn]
  · simp [startBuild, hm, hn, hb]
  · simp [startBuild, hm, hn, hb, hu]
  · simp [startBuild, hm, hn, hb, hu]
  · simp only [startBuild] at herr ⊢
    cases hm : marshal (startBuildPayload buildTypeID branch comment params
        sd ad) with
    | error e => simp [hm]
    | ok rp =>
      simp only [hm] at herr ⊢
      cases hn : nr "POST" (t.serverURL ++ "/app/rest/buildQueue")
          (some rp) with
      | error e => simp [hn]
      | ok rq =>
        simp only [hn] at herr ⊢
        cases hd : d (withHeaders t rq) with
        | error e => simp [hd]
        | ok rsp =>
          simp only [hd] at herr ⊢
          cases hb : rsp.bodyRead with
          | error e => simp [hb]
          | ok bdy =>
            simp only [hb] at herr ⊢
            cases hu : um bdy with
            | error e => simp [hu]
            | ok det => simp only [hu] at herr; simp at herr

/-- Claim C6, witness: a marshal failure returns `(-1, err)` and a fully
successful round trip returns the parsed ID with no error. -/
theorem startBuild_error_contract_witness :
    (startBuild ⟨"tok", "http://tc"⟩ mkRequest (fun _ => .error "net")
        (fun _ => .error "marshal boom") (fun _ => .ok ⟨11, "btX"⟩)
        "bt" "main" "c" [] [] [] = (-1, some "marshal boom")) ∧
    (startBuild ⟨"tok", "http://tc"⟩ mkRequest
        (fun _ => .ok ⟨200, [], .ok "jsonbody"⟩) (fun _ => .ok "payload")
        (fun _ => .ok ⟨11, "btX"⟩) "bt" "main" "c" [] [] [] = (11, none)) :=
  ⟨(startBuild_error_contract ⟨"tok", "http://tc"⟩ mkRequest
      (fun _ => .error "marshal boom") (fun _ => .ok ⟨11, "btX"⟩)
      "bt" "main" "c" [] [] [] "payload" "marshal boom"
      ⟨"POST", "x", [], none⟩ ⟨200, [], .ok "jsonbody"⟩ "jsonbody"
      ⟨11, "btX"⟩ (fun _ => .error "net")).1 rfl,
   (startBuild_error_contract ⟨"tok", "http://tc"⟩ mkRequest
      (fun _ => .ok "payload") (fun _ => .ok ⟨11, "btX"⟩)
      "bt" "main" "c" [] [] [] "payload" "unused"
      ⟨"POST", "http://tc" ++ "/app/rest/buildQueue", [], some "payload"⟩
      ⟨200, [], .ok "jsonbody"⟩ "jsonbody" ⟨11, "btX"⟩
      (fun _ => .ok ⟨200, [], .ok "jsonbody"⟩)).2.2.2.2.2.1
      rfl rfl rfl rfl⟩

/-- Claim C7: `CancelQueuedBuild` POSTs the stop payload — the comment and
the re-queue flag fixed to "false" — to `{base}/app/rest/buildQueue/{id}`
with the standard headers, and returns nil whenever the round trip
succeeds and the body is read, whatever the status and whatever the body
holds (the body is never parsed). -/
theorem cancelQueuedBuild_contract (t : TCClient) (id : Int)
    (comment : String) (marshal : TCBuildStopPayload → Except String String)
    (s : String) (resp : Response) (body : String)
    (hm : marshal ⟨comment, "false"⟩ = .ok s)
    (hb : resp.bodyRead = .ok body) :
    cancelQueuedBuild t mkRequest
      (fun req =>
        if req = ⟨"POST", t.serverURL ++ "/app/rest/buildQueue/" ++ toString id,
            [("Authorization", "Bearer " ++ t.token),
             ("Accept", "application/json"),
             ("Content-Type", "application/json")], some s⟩
        then .ok resp else .error "unexpected request")
      marshal id comment = none := by
  simp only [cancelQueuedBuild, mkRequest, withHeaders,
    setAuthorizationHeader, headerAdd, List.nil_append, List.singleton_append,
    List.cons_append, hm]
  simp [hb]

/-- Claim C7, witness: the contract at build 7 with the comment
"no longer needed" and a 200 response. -/
theorem cancelQueuedBuild_contract_witness :
    cancelQueuedBuild ⟨"tok", "http://tc"⟩ mkRequest
      (fun req =>
        if req = ⟨"POST",
            "http://tc" ++ "/app/rest/buildQueue/" ++ toString (7 : Int),
            [("Authorization", "Bearer " ++ "tok"),
             ("Accept", "application/json"),
             ("Content-Type", "application/json")], some "no longer needed"⟩
        then .ok ⟨200, [], .ok "serverbody"⟩ else .error "unexpected request")
      (fun p => .ok p.Comment) 7 "no longer needed" = none :=
  cancelQueuedBuild_contract ⟨"tok", "http://tc"⟩ 7 "no longer needed"
    (fun p => .ok p.Comment) "no longer needed" ⟨200, [], .ok "serverbody"⟩
    "serverbody" rfl rfl

/-- Claim C8: `StopBuild` is extensionally the same operation as
`CancelQueuedBuild` — same stop payload, same headers, same success and
error conditions, same non-inspection of the response — except that the
URL handed to `http.NewRequest` is `{base}/app/rest/builds/{id}` instead
of `{base}/app/rest/buildQueue/{id}`. -/
theorem stopBuild_eq_cancelQueuedBuild_on_builds_url (t : TCClient)
    (newRequest : NewRequest) (doReq : DoRequest)
    (marshal : TCBuildStopPayload → Except String String)
    (id : Int) (comment : String) :
    stopBuild t newRequest doReq marshal id comment =
      cancelQueuedBuild t
        (fun method _ body =>
          newRequest method (t.serverURL ++ "/app/rest/builds/" ++ toString id)
            body)
        doReq marshal id comment :=
  rfl

/-- Claim C9: `GetArtifactTextFile` GETs
`{base}/app/rest/builds/id:{id}/artifacts/content/{path}` and returns the
raw body unmodified together with the response's Content-Type header, for
any status and any content type; it errors exactly on request-construction
failure, network failure or body-read failure. -/
theorem getArtifactTextFile_contract (t : TCClient) (path : String)
    (id : Int) (resp : Response) (body e : String) (nr : NewRequest)
    (doReq : DoRequest) :
    (resp.bodyRead = .ok body →
      getArtifactTextFile t mkRequest
        (fun req =>
          if req = ⟨"GET",
              t.serverURL ++ "/app/rest/builds/id:" ++ toString id
                ++ "/artifacts/content/" ++ path,
              [("Authorization", "Bearer " ++ t.token),
               ("Accept", "application/json"),
               ("Content-Type", "application/json")], none⟩
          then .ok resp else .error "unexpected request")
        path id =
        (body, headerGet resp.headers "Content-Type", none)) ∧
    (nr "GET" (t.serverURL ++ "/app/rest/builds/id:" ++ toString id
        ++ "/artifacts/content/" ++ path) none = .error e →
      getArtifactTextFile t nr doReq path id = ("", "", some e)) ∧
    (getArtifactTextFile t mkRequest (fun _ => .error e) path id =
      ("", "", some e)) ∧
    (resp.bodyRead = .error e →
      getArtifactTextFile t mkRequest (fun _ => .ok resp) path id =
        ("", "", some e)) := by
  refine ⟨fun hb => ?_, fun hn => ?_, rfl, fun hb => ?_⟩
  · simp only [getArtifactTextFile, mkRequest, withHeaders,
      setAuthorizationHeader, headerAdd, List.nil_append,
      List.singleton_append, List.cons_append]
    simp [hb]
  · simp [getArtifactTextFile, hn]
  · simp [getArtifactTextFile, mkRequest, hb]

/-- Claim C9, witness: a 500 response with content type text/plain has its
body returned verbatim with that content type and no error. -/
theorem getArtifactTextFile_contract_witness :
    getArtifactTextFile ⟨"tok", "http://tc"⟩ mkRequest
      (fun req =>
        if req = ⟨"GET",
            "http://tc" ++ "/app/rest/builds/id:" ++ toString (5 : Int)
              ++ "/artifacts/content/" ++ "logs/build.log",
            [("Authorization", "Bearer " ++ "tok"),
             ("Accept", "application/json"),
             ("Content-Type", "application/json")], none⟩
        then .ok ⟨500, [("Content-Type", "text/plain")], .ok "raw bytes"⟩
        else .error "unexpected request")
      "logs/build.log" 5 = ("raw bytes", "text/plain", none) :=
  (getArtifactTextFile_contract ⟨"tok", "http://tc"⟩ "logs/build.log" 5
    ⟨500, [("Content-Type", "text/plain")], .ok "raw bytes"⟩ "raw bytes"
    "unused" mkRequest (fun _ => .error "unused")).1 rfl

end Teamcity

